import Mathlib

/-!
Verification of the call-tracking application (call_tracking/views.py).

The data model (LeadSource, Lead), the webhook handler `forward_call`, the
provisioning views `list_numbers` and `purchase_number`, the edit view
`LeadSourceUpdateView`, and the reporting endpoint `leads_by_source` are
embedded as pure Lean functions over an explicit database state.

Parts of the repository that live outside views.py (the form validators,
the model aggregation classmethod, the phone-number field) are modelled
from the specification; each such definition says so in its doc comment.
-/

namespace CallTracking

/-- Modelled from the spec: a parsed phone number as stored by the
phone-number form field; `e164` is its canonical E.164 rendering. -/
structure PhoneNumber where
  e164 : String
  deriving Repr, DecidableEq

/-- The `.as_e164` accessor used by `forward_call` and `purchase_number`:
renders the phone number in E.164 form. -/
def PhoneNumber.as_e164 (p : PhoneNumber) : String := p.e164

/-- Modelled from the spec: the purchase form's phone-number validation
(forms.py is not in the sources). A syntactically valid phone number is a
`+` followed by a nonempty string of digits; parsing a valid string yields
the phone number whose E.164 form is the string itself. -/
def parse_phone (s : String) : Option PhoneNumber :=
  match s.toList with
  | '+' :: rest => if rest ≠ [] && rest.all Char.isDigit then some ⟨s⟩ else none
  | _ => none

/-- Modelled from the spec: the `AreaCodeForm` validation (forms.py is not
in the sources). A valid area code is a string of exactly three digits. -/
def area_code_valid (s : String) : Bool :=
  s.length == 3 && s.toList.all Char.isDigit

/-- Message levels of the notification framework used by the views. -/
inductive MsgLevel where
  | error
  | success
  | warning
  deriving Repr, DecidableEq

/-- A flashed notification: a level together with its text. -/
abbrev Message := MsgLevel × String

/-- A LeadSource row: a purchased incoming number with its label and
forwarding destination. `pk` is the database primary key. -/
structure LeadSource where
  pk : Nat
  incoming_number : String
  name : String
  forwarding_number : PhoneNumber
  deriving Repr, DecidableEq

/-- A Lead row: one recorded inbound call, referencing its LeadSource by
primary key, with the caller data copied from the webhook fields. -/
structure Lead where
  source : Nat
  phone_number : String
  city : String
  state : String
  deriving Repr, DecidableEq

/-- The relational store: all LeadSource rows, all Lead rows, and the next
primary key handed out on LeadSource insertion. -/
structure State where
  sources : List LeadSource
  leads : List Lead
  next_pk : Nat
  deriving Repr, DecidableEq

/-- The HTTP responses the embedded views can produce. -/
inductive Response where
  /-- Redirect to a named route (e.g. `home`). -/
  | redirect (route : String)
  /-- Redirect to a named route parametrised by a primary key
  (e.g. `edit_lead_source` with `pk`). -/
  | redirectTo (route : String) (pk : Nat)
  /-- Render a template with a list of available numbers in its context. -/
  | render (template : String) (available_numbers : List String)
  /-- A TwiML call-control document whose single instruction dials the
  given number. -/
  | twiml (dialNumber : String)
  deriving Repr, DecidableEq

/-- Helper for the Python substring test: does `hay` contain `needle` as a
contiguous sublist? -/
def listHasSub (needle : List Char) : List Char → Bool
  | [] => needle.isEmpty
  | c :: t => needle.isPrefixOf (c :: t) || listHasSub needle t

/-- The Python expression `needle in hay` on strings: substring test. -/
def strContains (hay needle : String) : Bool :=
  listHasSub needle.toList hay.toList

/-- Errors a run of `forward_call` can raise: a missing POST field
(Python `KeyError`), or the two failure modes of `QuerySet.get`. -/
inductive FwdError where
  | keyError (field : String)
  | doesNotExist
  | multipleObjectsReturned
  deriving Repr, DecidableEq

/-- The ORM call `LeadSource.objects.get(incoming_number=called)`: returns
the unique matching row, raises `DoesNotExist` when there is none and
`MultipleObjectsReturned` when there are several. -/
def dbGetSource (st : State) (called : String) : Except FwdError LeadSource :=
  match st.sources.filter (fun s => s.incoming_number == called) with
  | [] => .error .doesNotExist
  | [s] => .ok s
  | _ :: _ :: _ => .error .multipleObjectsReturned

/-- The webhook handler `forward_call` (views.py lines 124-142). The POST
payload is a partial map from field names to values; accessing a missing
field raises `KeyError`. The handler looks up the LeadSource for `Called`,
reads `Caller`, `CallerCity` and `CallerState`, saves a new Lead, and
answers with TwiML dialing the source's forwarding number in E.164 form.
On any raised error the state is returned unchanged. -/
def forward_call (st : State) (post : String → Option String) :
    State × Except FwdError Response :=
  match post "Called" with
  | none => (st, .error (.keyError "Called"))
  | some called =>
    match dbGetSource st called with
    | .error e => (st, .error e)
    | .ok source =>
      match post "Caller" with
      | none => (st, .error (.keyError "Caller"))
      | some caller =>
        match post "CallerCity" with
        | none => (st, .error (.keyError "CallerCity"))
        | some callerCity =>
          match post "CallerState" with
          | none => (st, .error (.keyError "CallerState"))
          | some callerState =>
            let lead : Lead :=
              { source := source.pk
                phone_number := caller
                city := callerCity
                state := callerState }
            ({ st with leads := st.leads ++ [lead] },
              .ok (.twiml source.forwarding_number.as_e164))

/-- Result of a run of `list_numbers`: the flashed messages, the HTTP
response, and how many times the provider's number-search API was hit. -/
structure ListNumbersResult where
  messages : List Message
  response : Response
  providerCalls : Nat
  deriving Repr, DecidableEq

/-- The search view `list_numbers` (views.py lines 51-77). `area_code_data`
is the raw form field; `provider` is the Twilio `search_phone_numbers`
call, returning the available numbers for an area code. An invalid area
code flashes an error naming the bad input and redirects home without
calling the provider; an empty provider result flashes an error and
redirects home; otherwise the candidate list is rendered. -/
def list_numbers (area_code_data : String) (provider : String → List String) :
    ListNumbersResult :=
  if area_code_valid area_code_data then
    let available_numbers := provider area_code_data
    if available_numbers.isEmpty then
      { messages := [(.error,
          "There are no Twilio numbers available for area code " ++
          area_code_data ++ ". Search for numbers in a different area code.")]
        response := .redirect "home"
        providerCalls := 1 }
    else
      { messages := []
        response := .render "call_tracking/list_numbers.html" available_numbers
        providerCalls := 1 }
  else
    { messages := [(.error,
        area_code_data ++ " is not a valid area code. Please search again.")]
      response := .redirect "home"
      providerCalls := 0 }

/-- The shared Twilio voice application configuration fetched by
`get_twilio_application`: its SID and its voice webhook URL. -/
structure TwilioApplication where
  sid : String
  voice_url : String
  deriving Repr, DecidableEq

/-- The provider's record of a purchased number, as returned by
`purchase_phone_number`. -/
structure TwilioNumber where
  phone_number : String
  friendly_name : String
  deriving Repr, DecidableEq

/-- A failure raised by one of the outbound provider calls. -/
inductive ProviderError where
  | appFetchFailed
  | purchaseFailed
  deriving Repr, DecidableEq

/-- The warning flashed by `purchase_number` when the voice application
still points at example.com. -/
def exampleComWarning (sid : String) : String :=
  "WARNING: You <b>must</b> update the Twilio Application's voice URL " ++
  "before this number will forward calls. You can do that here: " ++
  "<a href=\"https://www.twilio.com/user/account/apps/" ++ sid ++
  "\" target=\"_blank\">https://www.twilio.com/user/account/apps/" ++
  sid ++ "</a>."

/-- The purchase view `purchase_number` (views.py lines 79-111). `getApp`
is the outcome of `get_twilio_application`; `purchase` is
`purchase_phone_number`, taking the E.164 number and the application SID.
On a valid form the view fetches the application, purchases the number,
saves a LeadSource with the purchased number (name left blank), flashes a
success message, adds an example.com warning when the voice URL is still a
placeholder, and redirects to the edit screen for the new row. Provider
failures propagate with the state unchanged; an invalid form flashes an
error naming the bad input and redirects home. -/
def purchase_number (st : State) (phone_number_data : String)
    (getApp : Except ProviderError TwilioApplication)
    (purchase : String → String → Except ProviderError TwilioNumber) :
    State × List Message × Except ProviderError Response :=
  match parse_phone phone_number_data with
  | some phone_number =>
    match getApp with
    | .error e => (st, [], .error e)
    | .ok application =>
      match purchase phone_number.as_e164 application.sid with
      | .error e => (st, [], .error e)
      | .ok twilio_number =>
        let lead_source : LeadSource :=
          { pk := st.next_pk
            incoming_number := twilio_number.phone_number
            name := ""
            forwarding_number := ⟨""⟩ }
        let st' : State :=
          { st with
            sources := st.sources ++ [lead_source]
            next_pk := st.next_pk + 1 }
        let msgs : List Message :=
          [(.success, "Phone number " ++ twilio_number.friendly_name ++
            " has been purchased. Please add a name for this lead source.")]
        let msgs :=
          if strContains application.voice_url "example.com" then
            msgs ++ [(.warning, exampleComWarning application.sid)]
          else msgs
        (st', msgs, .ok (.redirectTo "edit_lead_source" lead_source.pk))
  | none =>
    (st, [(.error, phone_number_data ++
        " is not a valid phone number. Please search again.")],
      .redirect "home" |> .ok)

/-- Modelled from the spec: the save step of the generic `UpdateView`
behind `LeadSourceUpdateView` (the framework machinery is not in the
sources; views.py declares `fields = [name, forwarding_number]`). The row
with the given primary key gets the submitted `name` and
`forwarding_number`; every other field and every other row is untouched. -/
def updateLeadSourceRow (st : State) (pk : Nat) (name : String)
    (fwd : PhoneNumber) : State :=
  { st with
    sources := st.sources.map fun s =>
      if s.pk = pk then { s with name := name, forwarding_number := fwd } else s }

/-- The edit form `LeadSourceUpdateView` (views.py lines 113-119): the
submitted forwarding number is validated; on success the row is updated
and a success message flashed; an invalid number redisplays the form
without touching the state. -/
def lead_source_update (st : State) (pk : Nat) (name : String)
    (forwarding_number_data : String) : State × List Message :=
  match parse_phone forwarding_number_data with
  | some fwd =>
    (updateLeadSourceRow st pk name fwd,
      [(.success, "Lead source successfully updated.")])
  | none => (st, [])

/-- The number of Lead rows referencing the LeadSource with primary key
`pk`. -/
def countLeadsFor (pk : Nat) (leads : List Lead) : Nat :=
  (leads.filter fun l => l.source == pk).length

/-- Modelled from the spec: `LeadSource.get_leads_per_source` (models.py is
not in the sources). Groups the Lead rows by their LeadSource and counts
them; only sources with at least one lead appear, keyed by their label. -/
def get_leads_per_source (st : State) : List (String × Nat) :=
  st.sources.filterMap fun s =>
    let c := countLeadsFor s.pk st.leads
    if c = 0 then none else some (s.name, c)

/-- The JSON endpoint `leads_by_source` (views.py lines 33-39): serialises
the per-source counts. -/
def leads_by_source (st : State) : List (String × Nat) :=
  get_leads_per_source st

/-- C1: for every inbound call webhook request whose Called field equals
the incoming_number of the unique matching LeadSource, `forward_call`
appends exactly one new Lead whose source is that LeadSource and whose
phone_number, city and state are copied verbatim from Caller, CallerCity
and CallerState, and the response is a call-control document dialing that
LeadSource's forwarding_number in E.164 form. -/
theorem forward_call_matched (st : State) (post : String → Option String)
    (called caller callerCity callerState : String) (source : LeadSource)
    (hCalled : post "Called" = some called)
    (hMatch : st.sources.filter (fun s => s.incoming_number == called) = [source])
    (hCaller : post "Caller" = some caller)
    (hCity : post "CallerCity" = some callerCity)
    (hState : post "CallerState" = some callerState) :
    forward_call st post =
      ({ st with leads := st.leads ++
          [{ source := source.pk, phone_number := caller,
             city := callerCity, state := callerState }] },
        .ok (.twiml source.forwarding_number.as_e164)) := by
  simp only [forward_call, dbGetSource, hCalled, hMatch, hCaller, hCity, hState]

/-- Witness for C1 at a concrete one-source store and webhook payload. -/
theorem forward_call_matched_witness :
    forward_call
      { sources := [{ pk := 1, incoming_number := "+14155551234", name := "A",
                      forwarding_number := ⟨"+16175550000"⟩ }],
        leads := [], next_pk := 2 }
      (fun f => if f = "Called" then some "+14155551234"
                else if f = "Caller" then some "+15005550006"
                else if f = "CallerCity" then some "SAN FRANCISCO"
                else if f = "CallerState" then some "CA" else none) =
      ({ sources := [{ pk := 1, incoming_number := "+14155551234", name := "A",
                       forwarding_number := ⟨"+16175550000"⟩ }],
         leads := [{ source := 1, phone_number := "+15005550006",
                     city := "SAN FRANCISCO", state := "CA" }], next_pk := 2 },
        .ok (.twiml "+16175550000")) :=
  forward_call_matched
    { sources := [{ pk := 1, incoming_number := "+14155551234", name := "A",
                    forwarding_number := ⟨"+16175550000"⟩ }],
      leads := [], next_pk := 2 }
    (fun f => if f = "Called" then some "+14155551234"
              else if f = "Caller" then some "+15005550006"
              else if f = "CallerCity" then some "SAN FRANCISCO"
              else if f = "CallerState" then some "CA" else none)
    "+14155551234" "+15005550006" "SAN FRANCISCO" "CA"
    { pk := 1, incoming_number := "+14155551234", name := "A",
      forwarding_number := ⟨"+16175550000"⟩ }
    rfl (by decide) rfl rfl rfl

/-- C2: for every inbound call webhook request whose Called field matches
no LeadSource's incoming_number, `forward_call` creates no Lead (the state
is returned unchanged) and deterministically fails with the DoesNotExist
error raised by the lookup, rather than exhibiting undefined behaviour. -/
theorem forward_call_unmatched (st : State) (post : String → Option String)
    (called : String)
    (hCalled : post "Called" = some called)
    (hNone : st.sources.filter (fun s => s.incoming_number == called) = []) :
    forward_call st post = (st, .error .doesNotExist) := by
  simp only [forward_call, dbGetSource, hCalled, hNone]

/-- Witness for C2 at a concrete store whose only source has a different
incoming number than the dialed one. -/
theorem forward_call_unmatched_witness :
    forward_call
      { sources := [{ pk := 1, incoming_number := "+14155551234", name := "A",
                      forwarding_number := ⟨"+16175550000"⟩ }],
        leads := [], next_pk := 2 }
      (fun f => if f = "Called" then some "+19995550000" else none) =
      ({ sources := [{ pk := 1, incoming_number := "+14155551234", name := "A",
                       forwarding_number := ⟨"+16175550000"⟩ }],
         leads := [], next_pk := 2 }, .error .doesNotExist) :=
  forward_call_unmatched _ _ _ rfl (by decide)

/-- C9: `forward_call` requires all four fields Called, Caller, CallerCity
and CallerState: whenever any one of them is absent from the request the
handler ends in a raised error rather than an ok response, and when the
absent field is Called or Caller no Lead has been persisted. -/
theorem forward_call_missing_field (st : State) (post : String → Option String)
    (hMiss : post "Called" = none ∨ post "Caller" = none ∨
             post "CallerCity" = none ∨ post "CallerState" = none) :
    (∃ e, (forward_call st post).2 = .error e) ∧
    ((post "Called" = none ∨ post "Caller" = none) →
      (forward_call st post).1.leads = st.leads) := by
  cases hCalled : post "Called" with
  | none =>
    refine ⟨⟨.keyError "Called", ?_⟩, fun _ => ?_⟩ <;>
      simp [forward_call, hCalled]
  | some called =>
    cases hGet : dbGetSource st called with
    | error e =>
      refine ⟨⟨e, ?_⟩, fun _ => ?_⟩ <;> simp [forward_call, hCalled, hGet]
    | ok source =>
      cases hCaller : post "Caller" with
      | none =>
        refine ⟨⟨.keyError "Caller", ?_⟩, fun _ => ?_⟩ <;>
          simp [forward_call, hCalled, hGet, hCaller]
      | some caller =>
        cases hCity : post "CallerCity" with
        | none =>
          refine ⟨⟨.keyError "CallerCity", ?_⟩, fun _ => ?_⟩ <;>
            simp [forward_call, hCalled, hGet, hCaller, hCity]
        | some callerCity =>
          cases hState : post "CallerState" with
          | none =>
            refine ⟨⟨.keyError "CallerState", ?_⟩, fun _ => ?_⟩ <;>
              simp [forward_call, hCalled, hGet, hCaller, hCity, hState]
          | some callerState =>
            simp only [hCalled, hCaller, hCity, hState] at hMiss
            rcases hMiss with h | h | h | h <;> simp at h

/-- Witness for C9 at an empty request payload. -/
theorem forward_call_missing_field_witness :
    (∃ e, (forward_call { sources := [], leads := [], next_pk := 0 }
        (fun _ => none)).2 = .error e) ∧
    (((fun (_ : String) => (none : Option String)) "Called" = none ∨
      (fun (_ : String) => (none : Option String)) "Caller" = none) →
      (forward_call { sources := [], leads := [], next_pk := 0 }
        (fun _ => none)).1.leads =
        State.leads { sources := [], leads := [], next_pk := 0 }) :=
  forward_call_missing_field _ _ (Or.inl rfl)

/-- C3: for every purchase request with a syntactically valid phone number
whose provider calls succeed, `purchase_number` appends exactly one new
LeadSource whose incoming_number is the phone number returned by the
provider's purchase call and whose name is empty, and redirects to the
edit screen for that new row's primary key. -/
theorem purchase_number_success_exact (st : State) (data : String)
    (phone : PhoneNumber) (getApp : Except ProviderError TwilioApplication)
    (app : TwilioApplication)
    (purchase : String → String → Except ProviderError TwilioNumber)
    (num : TwilioNumber)
    (hParse : parse_phone data = some phone)
    (hApp : getApp = .ok app)
    (hPurch : purchase phone.as_e164 app.sid = .ok num) :
    ∃ msgs, purchase_number st data getApp purchase =
      ({ st with sources := st.sources ++
                     [{ pk := st.next_pk, incoming_number := num.phone_number,
                        name := "", forwarding_number := ⟨""⟩ }],
                 next_pk := st.next_pk + 1 },
        msgs, .ok (.redirectTo "edit_lead_source" st.next_pk)) := by
  subst hApp
  simp only [purchase_number, hParse, hPurch]
  split <;> exact ⟨_, rfl⟩

/-- Witness for C3 at a concrete store and an always-succeeding provider. -/
theorem purchase_number_success_exact_witness :
    ∃ msgs, purchase_number { sources := [], leads := [], next_pk := 1 }
      "+14155559999"
      (.ok { sid := "AP123", voice_url := "https://myapp.io/forward" })
      (fun _ _ => .ok { phone_number := "+14155559999",
                        friendly_name := "(415) 555-9999" }) =
      ({ sources := [{ pk := 1, incoming_number := "+14155559999",
                       name := "", forwarding_number := ⟨""⟩ }],
         leads := [], next_pk := 2 },
        msgs, .ok (.redirectTo "edit_lead_source" 1)) :=
  purchase_number_success_exact
    { sources := [], leads := [], next_pk := 1 } "+14155559999" ⟨"+14155559999"⟩
    (.ok { sid := "AP123", voice_url := "https://myapp.io/forward" })
    { sid := "AP123", voice_url := "https://myapp.io/forward" }
    (fun _ _ => .ok { phone_number := "+14155559999",
                      friendly_name := "(415) 555-9999" })
    { phone_number := "+14155559999", friendly_name := "(415) 555-9999" }
    (by decide) rfl rfl

/-- C8: after a successful purchase whose application voice URL still
contains example.com, `purchase_number` flashes the warning in addition to
the success message, while the LeadSource creation and the redirect to the
edit screen still happen. -/
theorem purchase_number_example_warning (st : State) (data : String)
    (phone : PhoneNumber) (getApp : Except ProviderError TwilioApplication)
    (app : TwilioApplication)
    (purchase : String → String → Except ProviderError TwilioNumber)
    (num : TwilioNumber)
    (hParse : parse_phone data = some phone)
    (hApp : getApp = .ok app)
    (hPurch : purchase phone.as_e164 app.sid = .ok num)
    (hUrl : strContains app.voice_url "example.com" = true) :
    purchase_number st data getApp purchase =
      ({ st with sources := st.sources ++
                     [{ pk := st.next_pk, incoming_number := num.phone_number,
                        name := "", forwarding_number := ⟨""⟩ }],
                 next_pk := st.next_pk + 1 },
        [(.success, "Phone number " ++ num.friendly_name ++
           " has been purchased. Please add a name for this lead source."),
         (.warning, exampleComWarning app.sid)],
        .ok (.redirectTo "edit_lead_source" st.next_pk)) := by
  subst hApp
  simp only [purchase_number, hParse, hPurch, hUrl, if_true]
  rfl

/-- Witness for C8 at a provider whose voice URL is the example.com
placeholder. -/
theorem purchase_number_example_warning_witness :
    purchase_number { sources := [], leads := [], next_pk := 1 }
      "+14155559999"
      (.ok { sid := "AP123", voice_url := "http://example.com/forward" })
      (fun _ _ => .ok { phone_number := "+14155559999",
                        friendly_name := "(415) 555-9999" }) =
      ({ sources := [{ pk := 1, incoming_number := "+14155559999",
                       name := "", forwarding_number := ⟨""⟩ }],
         leads := [], next_pk := 2 },
        [(.success, "Phone number (415) 555-9999 has been purchased. " ++
           "Please add a name for this lead source."),
         (.warning, exampleComWarning "AP123")],
        .ok (.redirectTo "edit_lead_source" 1)) :=
  purchase_number_example_warning
    { sources := [], leads := [], next_pk := 1 } "+14155559999" ⟨"+14155559999"⟩
    (.ok { sid := "AP123", voice_url := "http://example.com/forward" })
    { sid := "AP123", voice_url := "http://example.com/forward" }
    (fun _ _ => .ok { phone_number := "+14155559999",
                      friendly_name := "(415) 555-9999" })
    { phone_number := "+14155559999", friendly_name := "(415) 555-9999" }
    (by decide) rfl rfl (by decide)

/-- C10: `purchase_number` creates the LeadSource only after both provider
calls succeed: when `get_twilio_application` or `purchase_phone_number`
fails, the error propagates and the stored set of LeadSources is
unchanged. -/
theorem purchase_number_provider_failure (st : State) (data : String)
    (phone : PhoneNumber) (getApp : Except ProviderError TwilioApplication)
    (purchase : String → String → Except ProviderError TwilioNumber)
    (e : ProviderError)
    (hParse : parse_phone data = some phone)
    (hFail : getApp = .error e ∨
      ∃ app, getApp = .ok app ∧ purchase phone.as_e164 app.sid = .error e) :
    (purchase_number st data getApp purchase).1.sources = st.sources ∧
    (purchase_number st data getApp purchase).2.2 = .error e := by
  rcases hFail with hApp | ⟨app, hApp, hPurch⟩
  · subst hApp
    constructor <;> simp [purchase_number, hParse]
  · subst hApp
    constructor <;> simp [purchase_number, hParse, hPurch]

/-- Witness for C10 at a failing application fetch. -/
theorem purchase_number_provider_failure_witness :
    (purchase_number { sources := [], leads := [], next_pk := 1 }
      "+14155559999" (.error .appFetchFailed)
      (fun _ _ => .error .purchaseFailed)).1.sources =
      State.sources { sources := [], leads := [], next_pk := 1 } ∧
    (purchase_number { sources := [], leads := [], next_pk := 1 }
      "+14155559999" (.error .appFetchFailed)
      (fun _ _ => .error .purchaseFailed)).2.2 = .error .appFetchFailed :=
  purchase_number_provider_failure
    { sources := [], leads := [], next_pk := 1 } "+14155559999" ⟨"+14155559999"⟩
    (.error .appFetchFailed) (fun _ _ => .error .purchaseFailed)
    .appFetchFailed (by decide) (Or.inl rfl)

/-- C4: for every update of a LeadSource through the edit form with a
given name and a syntactically valid forwarding number, exactly the
fields name and forwarding_number of the row with the submitted key are
set to the submitted values; its pk and incoming_number, all other rows,
the leads and the pk counter are unchanged. -/
theorem lead_source_update_exact (st : State) (pk : Nat) (nm : String)
    (fwdData : String) (fwd : PhoneNumber)
    (hParse : parse_phone fwdData = some fwd) :
    (lead_source_update st pk nm fwdData).1.sources =
      st.sources.map (fun s =>
        if s.pk = pk then
          { pk := s.pk, incoming_number := s.incoming_number,
            name := nm, forwarding_number := fwd }
        else s) ∧
    (lead_source_update st pk nm fwdData).1.leads = st.leads ∧
    (lead_source_update st pk nm fwdData).1.next_pk = st.next_pk := by
  refine ⟨?_, ?_, ?_⟩ <;>
    simp only [lead_source_update, hParse, updateLeadSourceRow]

/-- Witness for C4: the matching row keeps its incoming number while name
and forwarding number change, and the other row is untouched. -/
theorem lead_source_update_exact_witness :
    (lead_source_update
      { sources := [{ pk := 1, incoming_number := "+14155551234", name := "",
                      forwarding_number := ⟨""⟩ },
                    { pk := 2, incoming_number := "+12065550000", name := "B",
                      forwarding_number := ⟨"+15550001111"⟩ }],
        leads := [], next_pk := 3 } 1 "Billboard" "+16175550000").1.sources =
      List.map (fun s =>
        if s.pk = 1 then
          { pk := s.pk, incoming_number := s.incoming_number,
            name := "Billboard", forwarding_number := ⟨"+16175550000"⟩ }
        else s)
        [{ pk := 1, incoming_number := "+14155551234", name := "",
           forwarding_number := ⟨""⟩ },
         { pk := 2, incoming_number := "+12065550000", name := "B",
           forwarding_number := ⟨"+15550001111"⟩ }] ∧
    (lead_source_update
      { sources := [{ pk := 1, incoming_number := "+14155551234", name := "",
                      forwarding_number := ⟨""⟩ },
                    { pk := 2, incoming_number := "+12065550000", name := "B",
                      forwarding_number := ⟨"+15550001111"⟩ }],
        leads := [], next_pk := 3 } 1 "Billboard" "+16175550000").1.leads = [] ∧
    (lead_source_update
      { sources := [{ pk := 1, incoming_number := "+14155551234", name := "",
                      forwarding_number := ⟨""⟩ },
                    { pk := 2, incoming_number := "+12065550000", name := "B",
                      forwarding_number := ⟨"+15550001111"⟩ }],
        leads := [], next_pk := 3 } 1 "Billboard" "+16175550000").1.next_pk = 3 :=
  lead_source_update_exact
    { sources := [{ pk := 1, incoming_number := "+14155551234", name := "",
                    forwarding_number := ⟨""⟩ },
                  { pk := 2, incoming_number := "+12065550000", name := "B",
                    forwarding_number := ⟨"+15550001111"⟩ }],
      leads := [], next_pk := 3 } 1 "Billboard" "+16175550000"
    ⟨"+16175550000"⟩ (by decide)

/-- C5: for every search request with a syntactically invalid area code,
`list_numbers` redirects home with an error notification whose text names
the submitted bad input, and the provider's number-search API is called
zero times. -/
theorem list_numbers_invalid_area_code (area : String)
    (provider : String → List String)
    (hBad : area_code_valid area = false) :
    list_numbers area provider =
      { messages := [(.error,
          area ++ " is not a valid area code. Please search again.")]
        response := .redirect "home"
        providerCalls := 0 } := by
  simp only [list_numbers, hBad, Bool.false_eq_true, if_false]

/-- Witness for C5 at the four-character input 1234. -/
theorem list_numbers_invalid_area_code_witness :
    list_numbers "1234" (fun _ => ["+12345550000"]) =
      { messages := [(.error,
          "1234 is not a valid area code. Please search again.")]
        response := .redirect "home"
        providerCalls := 0 } :=
  list_numbers_invalid_area_code "1234" (fun _ => ["+12345550000"]) (by decide)

/-- C6: for every search request with a valid 3-digit area code the
provider is queried; a non-empty provider result is rendered as the
candidate list, and an empty result redirects home with an error
notification. -/
theorem list_numbers_valid_area_code (area : String)
    (provider : String → List String)
    (hOk : area_code_valid area = true) :
    (provider area ≠ [] →
      list_numbers area provider =
        { messages := []
          response := .render "call_tracking/list_numbers.html" (provider area)
          providerCalls := 1 }) ∧
    (provider area = [] →
      list_numbers area provider =
        { messages := [(.error,
            "There are no Twilio numbers available for area code " ++ area ++
            ". Search for numbers in a different area code.")]
          response := .redirect "home"
          providerCalls := 1 }) := by
  constructor
  · intro hne
    simp only [list_numbers, hOk, if_true, List.isEmpty_eq_true]
    rw [if_neg hne]
  · intro he
    simp only [list_numbers, hOk, if_true, List.isEmpty_eq_true]
    rw [if_pos he]

/-- Witness for C6 at area code 415 and a one-number provider result. -/
theorem list_numbers_valid_area_code_witness :
    ((fun (_ : String) => ["+14155550000"]) "415" ≠ [] →
      list_numbers "415" (fun _ => ["+14155550000"]) =
        { messages := []
          response := .render "call_tracking/list_numbers.html"
            ((fun (_ : String) => ["+14155550000"]) "415")
          providerCalls := 1 }) ∧
    ((fun (_ : String) => ["+14155550000"]) "415" = [] →
      list_numbers "415" (fun _ => ["+14155550000"]) =
        { messages := [(.error,
            "There are no Twilio numbers available for area code " ++ "415" ++
            ". Search for numbers in a different area code.")]
          response := .redirect "home"
          providerCalls := 1 }) :=
  list_numbers_valid_area_code "415" (fun _ => ["+14155550000"]) (by decide)

/-- C7: the leads-by-source report maps each source label to the number of
Leads referencing that source: over a store with two distinct sources A
and B carrying a and b leads respectively (both positive) it returns
exactly the pairs (A, a) and (B, b), and every entry of the report for any
store has a positive count, so a LeadSource with zero leads never
contributes an entry. -/
theorem leads_by_source_counts (sA sB : LeadSource) (leads : List Lead)
    (n a b : Nat)
    (ha : countLeadsFor sA.pk leads = a) (hb : countLeadsFor sB.pk leads = b)
    (hA : 0 < a) (hB : 0 < b) :
    leads_by_source { sources := [sA, sB], leads := leads, next_pk := n } =
      [(sA.name, a), (sB.name, b)] ∧
    ∀ st : State, ∀ p ∈ leads_by_source st, 0 < p.2 := by
  constructor
  · simp only [leads_by_source, get_leads_per_source, List.filterMap]
    simp only [countLeadsFor] at ha hb ⊢
    rw [ha, hb, if_neg (Nat.pos_iff_ne_zero.mp hA),
      if_neg (Nat.pos_iff_ne_zero.mp hB)]
  · intro st p hp
    simp only [leads_by_source, get_leads_per_source, List.mem_filterMap] at hp
    obtain ⟨s, _, hs⟩ := hp
    by_cases hc : countLeadsFor s.pk st.leads = 0
    · rw [if_pos hc] at hs
      exact absurd hs (by simp)
    · rw [if_neg hc] at hs
      cases hs
      exact Nat.pos_iff_ne_zero.mpr hc

/-- Witness for C7: two sources with two and one leads respectively. -/
theorem leads_by_source_counts_witness :
    leads_by_source
      { sources := [{ pk := 1, incoming_number := "+14155551234", name := "A",
                      forwarding_number := ⟨"+16175550000"⟩ },
                    { pk := 2, incoming_number := "+12065550000", name := "B",
                      forwarding_number := ⟨"+15550001111"⟩ }],
        leads := [{ source := 1, phone_number := "+15005550006",
                    city := "SF", state := "CA" },
                  { source := 1, phone_number := "+15005550007",
                    city := "LA", state := "CA" },
                  { source := 2, phone_number := "+15005550008",
                    city := "NYC", state := "NY" }],
        next_pk := 3 } = [("A", 2), ("B", 1)] ∧
    ∀ st : State, ∀ p ∈ leads_by_source st, 0 < p.2 :=
  leads_by_source_counts
    { pk := 1, incoming_number := "+14155551234", name := "A",
      forwarding_number := ⟨"+16175550000"⟩ }
    { pk := 2, incoming_number := "+12065550000", name := "B",
      forwarding_number := ⟨"+15550001111"⟩ }
    [{ source := 1, phone_number := "+15005550006",
       city := "SF", state := "CA" },
     { source := 1, phone_number := "+15005550007",
       city := "LA", state := "CA" },
     { source := 2, phone_number := "+15005550008",
       city := "NYC", state := "NY" }]
    3 2 1 (by decide) (by decide) (by decide) (by decide)

end CallTracking
